import Mathlib

/-!
Verification development for the CauliflowerVest escrow client.

The definitions below are a shallow embedding of the Python sources
`cauliflowervest/client/base_client.py`, `cauliflowervest/settings.py` and
`cauliflowervest/client/mac/tkinter.py`.  External collaborators (the urllib2
opener, `json.loads`, the OS encryption backend) are passed in as explicit
parameters; every network attempt is recorded in a trace so that statements
about request ordering and retry counts can be made.
-/

/-- Outcome of one `opener.open(request)` call as seen by the client: a
successful response carrying its body, an `urllib2.HTTPError` carrying the
HTTP status code, reason message and response body, or a plain
`urllib2.URLError` (connection failure, timeout, DNS failure, ...) carrying
its reason. -/
inductive AttemptOutcome where
  | success (body : String)
  | httpError (code : Nat) (msg : String) (body : String)
  | urlError (reason : String)

/-- Exceptions of the client.  The first four constructors model the domain
taxonomy declared at the top of base_client.py: `RequestError`, its subclass
`NotFoundError`, `MetadataError` and `AuthenticationError`.  The remaining
constructors model raw Python exceptions that the code can let escape:
`ValueError` from `json.loads`, `KeyError` and `TypeError` from subscripting
the parsed value, and `AttributeError` from calling a method on `None`. -/
inductive PyError where
  | requestError (msg : String)
  | notFoundError (msg : String)
  | metadataError (msg : String)
  | authenticationError (msg : String)
  | valueError (msg : String)
  | keyError (key : String)
  | typeError (msg : String)
  | attributeError (msg : String)

/-- Values produced by `json.loads`: enough of the JSON value space for the
escrow protocol (objects with string keys, strings, booleans, null). -/
inductive PyJson where
  | str (s : String)
  | bool (b : Bool)
  | obj (fields : List (String × PyJson))
  | null

/-- A Python metadata dict, as an association list of string keys/values. -/
abbrev Metadata := List (String × String)

/-- Python `str` of an `urllib2.HTTPError`: `HTTP Error <code>: <msg>`. -/
def strHTTPError (code : Nat) (msg : String) : String :=
  "HTTP Error " ++ toString code ++ ": " ++ msg

/-- Python `str` of a plain `urllib2.URLError`: `<urlopen error <reason>>`. -/
def strURLError (reason : String) : String :=
  "<urlopen error " ++ reason ++ ">"

/-- Rendering of a failed attempt the way `_RetryRequest` and `RetrieveSecret`
interpolate the caught exception into their messages: an `HTTPError` first has
its `msg` augmented with `': ' + e.read()` (the response body), then is
rendered by `str`; a `URLError` is rendered by `str` directly. -/
def strFailure : AttemptOutcome → String
  | .success _ => ""
  | .httpError code msg body => strHTTPError code (msg ++ ": " ++ body)
  | .urlError reason => strURLError reason

/-- base_client.py: `MAX_TRIES = 5`. -/
def MAX_TRIES : Nat := 5

/-- base_client.py: `TRY_DELAY_FACTOR = 5`. -/
def TRY_DELAY_FACTOR : Nat := 5

/-- settings.py: `GET_PASSPHRASE_ACTION = 'RetrieveSecret'`. -/
def GET_PASSPHRASE_ACTION : String := "RetrieveSecret"

/-- settings.py: `SET_PASSPHRASE_ACTION = 'UploadPassphrase'`. -/
def SET_PASSPHRASE_ACTION : String := "UploadPassphrase"

/-- settings.py: `FILEVAULT_REQUIRED_PROPERTIES`. -/
def FILEVAULT_REQUIRED_PROPERTIES : List String :=
  ["hdd_serial", "platform_uuid", "serial"]

/-- base_client.py: `PASSPHRASE_KEY = 'passphrase'`. -/
def PASSPHRASE_KEY : String := "passphrase"

/-- Python `httplib.NOT_FOUND`. -/
def NOT_FOUND : Nat := 404

/-- base_client.py line 38: `JSON_PREFIX = ")]}',\n"`, the anti cross-site
script-inclusion marker required at the start of every JSON response body. -/
def JSON_PREFIX : String :=
  String.mk [')', ']', '\x7d', '\'', ',', '\n']

/-- Python `s.startswith(p)`, over the character lists of the strings.
Implemented structurally so that it evaluates inside the kernel. -/
def pyStartsWith (s p : String) : Bool := p.data.isPrefixOf s.data

/-- Python slicing `s[n:]`, over the character list of the string. -/
def pyDrop (s : String) (n : Nat) : String := String.mk (s.data.drop n)

/-- Result of one `_RetryRequest` call: the returned value or raised error
(`.ok none` models the `None` the Python function returns when the `for` loop
body never runs, i.e. only when `MAX_TRIES = 0`), the `time.sleep` durations
performed, in order, and the number of `opener.open` attempts made. -/
structure RetryRun where
  result : Except PyError (Option String)
  sleeps : List Nat
  attempts : Nat

/-- Loop body of `CauliflowerVestClient._RetryRequest` (base_client.py lines
153-168), recursing on the number of remaining iterations of
`for try_num in range(MAX_TRIES)`.  `tryNum` is the current `try_num`.  On an
`HTTPError` the message is augmented with the response body; a 4xx with
`retry_4xx` false raises `RequestError` immediately; the last iteration
raises the permanent `RequestError`; otherwise the loop sleeps
`(try_num + 1) * factor` seconds and retries. -/
def retryAux (opener : Nat → AttemptOutcome) (desc : String) (retry4xx : Bool)
    (maxTries factor : Nat) : Nat → Nat → RetryRun
  | _, 0 => ⟨.ok none, [], 0⟩
  | tryNum, rem + 1 =>
    match opener tryNum with
    | .success body => ⟨.ok (some body), [], 1⟩
    | .httpError code msg body =>
      if 400 ≤ code ∧ code < 500 ∧ retry4xx = false then
        ⟨.error (.requestError (desc ++ " failed: " ++ strHTTPError code (msg ++ ": " ++ body))),
         [], 1⟩
      else if tryNum = maxTries - 1 then
        ⟨.error (.requestError
            (desc ++ " failed permanently: " ++ strHTTPError code (msg ++ ": " ++ body))),
         [], 1⟩
      else
        let r := retryAux opener desc retry4xx maxTries factor (tryNum + 1) rem
        ⟨r.result, (tryNum + 1) * factor :: r.sleeps, r.attempts + 1⟩
    | .urlError reason =>
      if tryNum = maxTries - 1 then
        ⟨.error (.requestError (desc ++ " failed permanently: " ++ strURLError reason)), [], 1⟩
      else
        let r := retryAux opener desc retry4xx maxTries factor (tryNum + 1) rem
        ⟨r.result, (tryNum + 1) * factor :: r.sleeps, r.attempts + 1⟩

/-- `CauliflowerVestClient._RetryRequest(request, description, retry_4xx)`:
runs the retry loop with the class constants `MAX_TRIES` and
`TRY_DELAY_FACTOR`, starting at `try_num = 0`.  The `opener` function gives
the outcome of the attempt with each index. -/
def retryRequest (opener : Nat → AttemptOutcome) (desc : String) (retry4xx : Bool) : RetryRun :=
  retryAux opener desc retry4xx MAX_TRIES TRY_DELAY_FACTOR 0 MAX_TRIES

/-- Python `metadata.get(key, None)` over the association-list dict. -/
def mdGet (md : Metadata) (key : String) : Option String :=
  match md with
  | [] => none
  | kv :: rest => if kv.1 == key then some kv.2 else mdGet rest key

/-- Python truthiness test `not self._metadata.get(key, None)`: true when the
key is absent or its value is the empty (falsy) string. -/
def mdValueFalsy : Option String → Bool
  | none => true
  | some v => v == ""

/-- Python truthiness test `not self._metadata` for the metadata attribute:
`None` and the empty dict are falsy. -/
def mdFalsy : Option Metadata → Bool
  | none => true
  | some l => l.isEmpty

/-- The validation loop of `GetAndValidateMetadata` (base_client.py lines
134-136): walk the required keys in declared order and raise `MetadataError`
naming the first key that is absent or empty. -/
def validateRequired (md : Metadata) : List String → Except PyError Unit
  | [] => .ok ()
  | key :: rest =>
    if mdValueFalsy (mdGet md key) then
      .error (.metadataError ("Required metadata is not found: " ++ key))
    else validateRequired md rest

/-- `CauliflowerVestClient.GetAndValidateMetadata` (base_client.py lines
126-136): when the cached `self._metadata` is falsy it is replaced by the
result of `self._GetMetadata()` (the `fetched` parameter), then every key of
the required list is validated.  Returns the metadata now cached on the
client. -/
def getAndValidateMetadata (md0 : Option Metadata) (fetched : Metadata)
    (required : List String) : Except PyError Metadata :=
  let md := if mdFalsy md0 then fetched else md0.getD []
  match validateRequired md required with
  | .ok _ => .ok md
  | .error e => .error e

/-- Shape of one outbound HTTP request, abstracting the URL string the client
builds: the HTTP method returned by `request.get_method()` and which endpoint
path the URL addresses. -/
inductive ReqPath where
  | xsrfToken (action : String)
  | escrowSecret (target : String)
  | rekeyStatus (target : String) (tag : String)
  | escrowUpload (target : String)

/-- One `opener.open` call: the request method and path. -/
structure Request where
  method : String
  path : ReqPath

/-- Result of a client operation together with the trace of `opener.open`
calls it performed, in order (retries repeat the same request). -/
structure OpRun (α : Type) where
  result : Except PyError α
  trace : List Request

/-- `CauliflowerVestClient._FetchXsrfToken(action)` (base_client.py lines
143-146): GET `/xsrf-token/<action>` through `_RetryRequest` with the
description `'Fetching XSRF token'`, returning the raw response body.  When
`_RetryRequest` returns `None` (impossible with `MAX_TRIES = 5`), calling
`.read()` on it would raise `AttributeError`. -/
def fetchXsrfTokenT (opener : Nat → AttemptOutcome) (action : String) : OpRun String :=
  let run := retryRequest opener "Fetching XSRF token" false
  let tr := List.replicate run.attempts ⟨"GET", .xsrfToken action⟩
  match run.result with
  | .ok (some body) => ⟨.ok body, tr⟩
  | .ok none => ⟨.error (.attributeError "NoneType object has no attribute read"), tr⟩
  | .error e => ⟨.error e, tr⟩

/-- Python `fields[key]` on the object produced by `json.loads`. -/
def pyLookup (fields : List (String × PyJson)) (key : String) : Option PyJson :=
  match fields with
  | [] => none
  | kv :: rest => if kv.1 == key then some kv.2 else pyLookup rest key

/-- Python `data[key]` where `data` came from `json.loads`: on a JSON object a
missing key raises `KeyError`; on a non-object value subscripting by a string
raises `TypeError`. -/
def pyGetItem (data : PyJson) (key : String) : Except PyError PyJson :=
  match data with
  | .obj fields =>
    match pyLookup fields key with
    | some v => .ok v
    | none => .error (.keyError key)
  | _ => .error (.typeError "value is not subscriptable by string keys")

/-- `CauliflowerVestClient.RetrieveSecret(target_id)` (base_client.py lines
97-124): fetch an XSRF token for `GET_PASSPHRASE_ACTION`, then issue a single
direct `opener.open` GET on the escrow URL.  An `HTTPError` has its message
augmented with the body; status 404 raises `NotFoundError`, any other
`URLError` raises `RequestError`.  A successful body must start with
`JSON_PREFIX`; the remainder is passed to `json.loads` and subscripted with
`PASSPHRASE_KEY`.  `jsonLoads` stands for Python `json.loads`; its `.error`
is the message of the `ValueError` it raises on malformed input. -/
def retrieveSecretT (tokenOpener : Nat → AttemptOutcome) (getOutcome : AttemptOutcome)
    (jsonLoads : String → Except String PyJson) (target : String) : OpRun PyJson :=
  let fetch := fetchXsrfTokenT tokenOpener GET_PASSPHRASE_ACTION
  match fetch.result with
  | .error e => ⟨.error e, fetch.trace⟩
  | .ok _xsrfToken =>
    let tr := fetch.trace ++ [⟨"GET", .escrowSecret target⟩]
    match getOutcome with
    | .httpError code msg body =>
      if code = NOT_FOUND then
        ⟨.error (.notFoundError
            ("Failed to retrieve passphrase. " ++ strHTTPError code (msg ++ ": " ++ body))), tr⟩
      else
        ⟨.error (.requestError
            ("Failed to retrieve passphrase. " ++ strHTTPError code (msg ++ ": " ++ body))), tr⟩
    | .urlError reason =>
      ⟨.error (.requestError ("Failed to retrieve passphrase. " ++ strURLError reason)), tr⟩
    | .success content =>
      if pyStartsWith content JSON_PREFIX then
        match jsonLoads (pyDrop content (String.length JSON_PREFIX)) with
        | .error m => ⟨.error (.valueError m), tr⟩
        | .ok data => ⟨pyGetItem data PASSPHRASE_KEY, tr⟩
      else
        ⟨.error (.requestError "Expected JSON prefix missing."), tr⟩

/-- `CauliflowerVestClient.IsKeyRotationNeeded(target_id, tag)` (base_client.py
lines 170-196): a single direct `opener.open` GET on the rekey-status URL; no
XSRF token is fetched.  Any `URLError` (message augmented for `HTTPError`)
raises `RequestError`; a successful body must start with `JSON_PREFIX` and the
remainder is returned parsed by `json.loads`. -/
def isKeyRotationNeededT (getOutcome : AttemptOutcome)
    (jsonLoads : String → Except String PyJson) (target tag : String) : OpRun PyJson :=
  let tr : List Request := [⟨"GET", .rekeyStatus target tag⟩]
  match getOutcome with
  | .httpError code msg body =>
    ⟨.error (.requestError ("Failed to get status. " ++ strHTTPError code (msg ++ ": " ++ body))), tr⟩
  | .urlError reason =>
    ⟨.error (.requestError ("Failed to get status. " ++ strURLError reason)), tr⟩
  | .success content =>
    if pyStartsWith content JSON_PREFIX then
      match jsonLoads (pyDrop content (String.length JSON_PREFIX)) with
      | .error m => ⟨.error (.valueError m), tr⟩
      | .ok data => ⟨.ok data, tr⟩
    else
      ⟨.error (.requestError "Expected JSON prefix missing."), tr⟩

/-- `CauliflowerVestClient.UploadPassphrase(target_id, passphrase, retry_4xx)`
(base_client.py lines 198-229): fetch an XSRF token for
`SET_PASSPHRASE_ACTION`; then, when the cached metadata is falsy, run
`GetAndValidateMetadata` (fetching via `_GetMetadata`, the `fetched`
parameter, and validating against `required`); finally send the PUT request
through `_RetryRequest` with description `'Uploading passphrase'` and the
caller-supplied `retry_4xx`. -/
def uploadPassphraseT (tokenOpener putOpener : Nat → AttemptOutcome)
    (metadata0 : Option Metadata) (fetched : Metadata) (required : List String)
    (target _passphrase : String) (retry4xx : Bool) : OpRun Unit :=
  let fetch := fetchXsrfTokenT tokenOpener SET_PASSPHRASE_ACTION
  match fetch.result with
  | .error e => ⟨.error e, fetch.trace⟩
  | .ok _xsrfToken =>
    let mdRes : Except PyError Metadata :=
      if mdFalsy metadata0 then getAndValidateMetadata metadata0 fetched required
      else .ok (metadata0.getD [])
    match mdRes with
    | .error e => ⟨.error e, fetch.trace⟩
    | .ok _md =>
      let run := retryRequest putOpener "Uploading passphrase" retry4xx
      let tr := fetch.trace ++ List.replicate run.attempts ⟨"PUT", .escrowUpload target⟩
      match run.result with
      | .error e => ⟨.error e, tr⟩
      | .ok _ => ⟨.ok (), tr⟩

/-- Outcome shown by the Tkinter GUI at the end of a workflow action: either
`ShowFatalError(message)` or the success screen prepared by `_PrepTop`. -/
inductive GuiOutcome where
  | fatalError (message : String)
  | successScreen (message : String)

/-- Modelled from the spec: `glue.ESCROW_FAILED_MESSAGE`, the generic
escrow-upload failure message defined in `cauliflowervest/client/mac/glue.py`,
which is not under src/.  The spec describes it as the generic upload-failure
report of the encrypt-new-volume path; both GUI paths reference this single
constant, so its exact text is irrelevant to the claims about it. -/
def ESCROW_FAILED_MESSAGE : String := "Escrow upload failed."

/-- Modelled from the spec: `glue.ENCRYPTION_FAILED_MESSAGE` from glue.py
(not under src/), shown when the encryption backend step fails. -/
def ENCRYPTION_FAILED_MESSAGE : String := "Encryption failed."

/-- Modelled from the spec: `glue.ENCRYPTION_SUCCESS_MESSAGE` from glue.py
(not under src/), shown when encryption and escrow both succeed. -/
def ENCRYPTION_SUCCESS_MESSAGE : String := "Encryption succeeded."

/-- `Gui._RotateRecoveryKey` (tkinter.py lines 259-278): call
`glue.UpdateEscrowPassphrase` (the `updateEscrowPassphrase` parameter; on a
`glue.Error` the GUI shows the error's own message); then
`client_.UploadPassphrase(volume_uuid, recovery_key)` — on any
`base_client.Error` the GUI shows `glue.ESCROW_FAILED_MESSAGE`; on success it
shows `'Key rotated successfully.'`. -/
def rotateRecoveryKey (updateEscrowPassphrase : Except String String)
    (upload : String → String → Except PyError Unit) (volume_uuid : String) : GuiOutcome :=
  match updateEscrowPassphrase with
  | .error emsg => .fatalError emsg
  | .ok recovery_key =>
    match upload volume_uuid recovery_key with
    | .error _ => .fatalError ESCROW_FAILED_MESSAGE
    | .ok _ => .successScreen "Key rotated successfully."

/-- The encrypt-new-volume path of `Gui._PlainVolumeAction` (tkinter.py lines
179-189): call `glue.ApplyEncryption` (the `applyEncryption` parameter; on a
`glue.Error` the GUI shows `glue.ENCRYPTION_FAILED_MESSAGE`); then
`client_.UploadPassphrase(volume_uuid, recovery_token)` — on any
`base_client.Error` the GUI shows `glue.ESCROW_FAILED_MESSAGE`; on success it
shows `glue.ENCRYPTION_SUCCESS_MESSAGE`. -/
def plainVolumeAction (applyEncryption : Except String (String × String))
    (upload : String → String → Except PyError Unit) : GuiOutcome :=
  match applyEncryption with
  | .error _ => .fatalError ENCRYPTION_FAILED_MESSAGE
  | .ok (volume_uuid, recovery_token) =>
    match upload volume_uuid recovery_token with
    | .error _ => .fatalError ESCROW_FAILED_MESSAGE
    | .ok _ => .successScreen ENCRYPTION_SUCCESS_MESSAGE

/-- True of an attempt outcome that `_RetryRequest` treats as retryable when
`retry_4xx` is false: a connection-level failure or an HTTP error whose status
is not in [400, 500). -/
def isNon4xxFailure : AttemptOutcome → Bool
  | .success _ => false
  | .httpError code _ _ => !(decide (400 ≤ code) && decide (code < 500))
  | .urlError _ => true

/-- The sleep schedule of a run of the retry loop in which every attempt
fails with a retryable error: starting at attempt `tryNum`, `count` sleeps of
`(tryNum + 1) * factor, (tryNum + 2) * factor, ...` seconds. -/
def linearSleeps (factor : Nat) : Nat → Nat → List Nat
  | _, 0 => []
  | tryNum, count + 1 => (tryNum + 1) * factor :: linearSleeps factor (tryNum + 1) count

theorem retryAux_step (opener : Nat → AttemptOutcome) (desc : String) (retry4xx : Bool)
    (maxTries factor tryNum rem : Nat) :
    retryAux opener desc retry4xx maxTries factor tryNum (rem + 1) =
      match opener tryNum with
      | .success body => ⟨.ok (some body), [], 1⟩
      | .httpError code msg body =>
        if 400 ≤ code ∧ code < 500 ∧ retry4xx = false then
          ⟨.error (.requestError (desc ++ " failed: " ++ strHTTPError code (msg ++ ": " ++ body))),
           [], 1⟩
        else if tryNum = maxTries - 1 then
          ⟨.error (.requestError
              (desc ++ " failed permanently: " ++ strHTTPError code (msg ++ ": " ++ body))),
           [], 1⟩
        else
          let r := retryAux opener desc retry4xx maxTries factor (tryNum + 1) rem
          ⟨r.result, (tryNum + 1) * factor :: r.sleeps, r.attempts + 1⟩
      | .urlError reason =>
        if tryNum = maxTries - 1 then
          ⟨.error (.requestError (desc ++ " failed permanently: " ++ strURLError reason)), [], 1⟩
        else
          let r := retryAux opener desc retry4xx maxTries factor (tryNum + 1) rem
          ⟨r.result, (tryNum + 1) * factor :: r.sleeps, r.attempts + 1⟩ := by
  rfl

theorem retryAux_allFail (opener : Nat → AttemptOutcome) (desc : String)
    (maxTries factor : Nat) :
    ∀ rem tryNum, tryNum + rem = maxTries → 0 < rem →
      (∀ n, tryNum ≤ n → n < maxTries → isNon4xxFailure (opener n) = true) →
      retryAux opener desc false maxTries factor tryNum rem =
        ⟨.error (.requestError
            (desc ++ " failed permanently: " ++ strFailure (opener (maxTries - 1)))),
         linearSleeps factor tryNum (rem - 1), rem⟩ := by
  intro rem
  induction rem with
  | zero => intro tryNum _ h0; exact absurd h0 (by simp)
  | succ r ih =>
    intro tryNum hinv _ hf
    have htn : tryNum < maxTries := by omega
    have hfail := hf tryNum (Nat.le_refl _) htn
    rw [retryAux_step]
    cases hop : opener tryNum with
    | success body => rw [hop] at hfail; simp [isNon4xxFailure] at hfail
    | httpError code msg body =>
      rw [hop] at hfail
      have hnot : ¬(400 ≤ code ∧ code < 500) := by
        simp only [isNon4xxFailure, Bool.not_eq_true', Bool.and_eq_false_iff,
          decide_eq_false_iff_not] at hfail
        intro hc
        rcases hfail with h | h
        · exact h hc.1
        · exact h hc.2
      dsimp only
      rw [if_neg (fun hc => hnot ⟨hc.1, hc.2.1⟩)]
      cases r with
      | zero =>
        rw [if_pos (show tryNum = maxTries - 1 by omega)]
        have hmop : opener (maxTries - 1) = .httpError code msg body := by
          rw [show maxTries - 1 = tryNum by omega]; exact hop
        rw [hmop]
        simp [strFailure, linearSleeps]
      | succ r' =>
        rw [if_neg (show ¬tryNum = maxTries - 1 by omega)]
        rw [ih (tryNum + 1) (by omega) (by omega) (fun n hn hn' => hf n (by omega) hn')]
        simp [linearSleeps]
    | urlError reason =>
      dsimp only
      cases r with
      | zero =>
        rw [if_pos (show tryNum = maxTries - 1 by omega)]
        have hmop : opener (maxTries - 1) = .urlError reason := by
          rw [show maxTries - 1 = tryNum by omega]; exact hop
        rw [hmop]
        simp [strFailure, linearSleeps]
      | succ r' =>
        rw [if_neg (show ¬tryNum = maxTries - 1 by omega)]
        rw [ih (tryNum + 1) (by omega) (by omega) (fun n hn hn' => hf n (by omega) hn')]
        simp [linearSleeps]

theorem retryAux_attempts_pos (opener : Nat → AttemptOutcome) (desc : String) (retry4xx : Bool)
    (maxTries factor tryNum rem : Nat) :
    0 < (retryAux opener desc retry4xx maxTries factor tryNum (rem + 1)).attempts := by
  rw [retryAux_step]
  cases opener tryNum with
  | success body => simp
  | httpError code msg body =>
    dsimp only
    split
    · simp
    · split <;> simp
  | urlError reason =>
    dsimp only
    split <;> simp

theorem retryAux_result_ne_ok_none (opener : Nat → AttemptOutcome) (desc : String)
    (retry4xx : Bool) (maxTries factor : Nat) :
    ∀ rem tryNum, 0 < rem → tryNum + rem = maxTries →
      (retryAux opener desc retry4xx maxTries factor tryNum rem).result ≠ .ok none := by
  intro rem
  induction rem with
  | zero => intro tryNum h0 _; exact absurd h0 (by simp)
  | succ r ih =>
    intro tryNum _ hinv h
    rw [retryAux_step] at h
    cases hop : opener tryNum <;> rw [hop] at h <;> dsimp only at h
    case success body => simp at h
    case httpError code msg body =>
      split at h
      · simp at h
      · split at h
        · simp at h
        · next hne =>
          have hr : 0 < r := by omega
          exact ih (tryNum + 1) hr (by omega) (by simpa using h)
    case urlError reason =>
      split at h
      · simp at h
      · next hne =>
        have hr : 0 < r := by omega
        exact ih (tryNum + 1) hr (by omega) (by simpa using h)

theorem retryAux_error_shape (opener : Nat → AttemptOutcome) (desc : String)
    (retry4xx : Bool) (maxTries factor : Nat) :
    ∀ rem tryNum e, (retryAux opener desc retry4xx maxTries factor tryNum rem).result = .error e →
      ∃ m, e = .requestError m := by
  intro rem
  induction rem with
  | zero => intro tryNum e h; simp [retryAux] at h
  | succ r ih =>
    intro tryNum e h
    rw [retryAux_step] at h
    cases hop : opener tryNum <;> rw [hop] at h <;> dsimp only at h
    case success body => simp at h
    case httpError code msg body =>
      split at h
      · exact ⟨_, by simpa using h.symm⟩
      · split at h
        · exact ⟨_, by simpa using h.symm⟩
        · exact ih (tryNum + 1) e (by simpa using h)
    case urlError reason =>
      split at h
      · exact ⟨_, by simpa using h.symm⟩
      · exact ih (tryNum + 1) e (by simpa using h)

theorem retryRequest_error_shape (opener : Nat → AttemptOutcome) (desc : String)
    (retry4xx : Bool) (e : PyError)
    (h : (retryRequest opener desc retry4xx).result = .error e) : ∃ m, e = .requestError m :=
  retryAux_error_shape opener desc retry4xx MAX_TRIES TRY_DELAY_FACTOR MAX_TRIES 0 e h

theorem retryRequest_result_ne_ok_none (opener : Nat → AttemptOutcome) (desc : String)
    (retry4xx : Bool) : (retryRequest opener desc retry4xx).result ≠ .ok none :=
  retryAux_result_ne_ok_none opener desc retry4xx MAX_TRIES TRY_DELAY_FACTOR MAX_TRIES 0
    (by simp [MAX_TRIES]) (by simp [MAX_TRIES])

theorem retryRequest_attempts_pos (opener : Nat → AttemptOutcome) (desc : String)
    (retry4xx : Bool) : 0 < (retryRequest opener desc retry4xx).attempts :=
  retryAux_attempts_pos opener desc retry4xx MAX_TRIES TRY_DELAY_FACTOR 0 4

theorem fetchXsrfTokenT_trace (opener : Nat → AttemptOutcome) (action : String) :
    (fetchXsrfTokenT opener action).trace =
      List.replicate (retryRequest opener "Fetching XSRF token" false).attempts
        ⟨"GET", .xsrfToken action⟩ := by
  unfold fetchXsrfTokenT
  cases h : (retryRequest opener "Fetching XSRF token" false).result with
  | ok o => cases o <;> simp [h]
  | error e => simp [h]

theorem fetchXsrfTokenT_error_shape (opener : Nat → AttemptOutcome) (action : String)
    (e : PyError) (h : (fetchXsrfTokenT opener action).result = .error e) :
    ∃ m, e = .requestError m := by
  unfold fetchXsrfTokenT at h
  cases hr : (retryRequest opener "Fetching XSRF token" false).result with
  | ok o =>
    cases o with
    | none => exact absurd hr (retryRequest_result_ne_ok_none opener _ false)
    | some body => simp only [hr] at h; simp at h
  | error e' =>
    simp only [hr] at h; simp at h
    exact h ▸ retryRequest_error_shape opener _ false e' hr

theorem head?_append_left {α : Type} (l1 l2 : List α) (x : α) (h : l1.head? = some x) :
    (l1 ++ l2).head? = some x := by
  cases l1 <;> simp_all

theorem head?_replicate_pos {α : Type} (n : Nat) (a : α) (h : 0 < n) :
    (List.replicate n a).head? = some a := by
  cases n with
  | zero => exact absurd h (by simp)
  | succ m => simp [List.replicate]

theorem countP_replicate_false {α : Type} (p : α → Bool) (n : Nat) (a : α) (h : p a = false) :
    (List.replicate n a).countP p = 0 := by
  induction n with
  | zero => simp
  | succ m ih => simp [List.replicate_succ, List.countP_cons, h, ih]

theorem countP_replicate_true {α : Type} (p : α → Bool) (n : Nat) (a : α) (h : p a = true) :
    (List.replicate n a).countP p = n := by
  induction n with
  | zero => simp
  | succ m ih => simp [List.replicate_succ, List.countP_cons, h, ih]

/-- True of a request against the XSRF token endpoint. -/
def isXsrfFetch : Request → Bool
  | ⟨_, .xsrfToken _⟩ => true
  | _ => false

/-- True of a request against the per-target escrow secret endpoint. -/
def isSecretGet : Request → Bool
  | ⟨_, .escrowSecret _⟩ => true
  | _ => false

/-- True of a request against the rekey-required endpoint. -/
def isRekeyGet : Request → Bool
  | ⟨_, .rekeyStatus _ _⟩ => true
  | _ => false

/-- True of an upload (PUT) request against the escrow endpoint. -/
def isUploadPut : Request → Bool
  | ⟨_, .escrowUpload _⟩ => true
  | _ => false

/-- True of the four domain error classes of base_client.py:
`RequestError`, `NotFoundError`, `MetadataError`, `AuthenticationError`. -/
def isEscrowTaxonomyError : PyError → Bool
  | .requestError _ => true
  | .notFoundError _ => true
  | .metadataError _ => true
  | .authenticationError _ => true
  | _ => false

/-- True of a raw Python data exception: `ValueError` from `json.loads`,
`KeyError` or `TypeError` from subscripting the parsed value. -/
def isRawDataError : PyError → Bool
  | .valueError _ => true
  | .keyError _ => true
  | .typeError _ => true
  | _ => false

theorem validateRequired_ok_iff (md : Metadata) (required : List String) :
    validateRequired md required = .ok () ↔
      ∀ k ∈ required, mdValueFalsy (mdGet md k) = false := by
  induction required with
  | nil => simp [validateRequired]
  | cons key rest ih =>
    simp only [validateRequired]
    split
    · next hfal =>
      constructor
      · intro h; exact absurd h (by simp)
      · intro h; exact absurd (h key (by simp)) (by simp [hfal])
    · next hfal =>
      rw [ih]
      constructor
      · intro h k hk
        rcases List.mem_cons.mp hk with rfl | hk'
        · simpa using hfal
        · exact h k hk'
      · intro h k hk; exact h k (List.mem_cons_of_mem _ hk)

theorem validateRequired_error_shape (md : Metadata) :
    ∀ required e, validateRequired md required = .error e → ∃ m, e = .metadataError m := by
  intro required
  induction required with
  | nil => intro e h; simp [validateRequired] at h
  | cons key rest ih =>
    intro e h
    simp only [validateRequired] at h
    split at h
    · exact ⟨_, by simpa using h.symm⟩
    · exact ih e h

theorem validateRequired_first (md : Metadata) (post : List String) (key : String)
    (hkey : mdValueFalsy (mdGet md key) = true) :
    ∀ pre, (∀ k ∈ pre, mdValueFalsy (mdGet md k) = false) →
      validateRequired md (pre ++ key :: post) =
        .error (.metadataError ("Required metadata is not found: " ++ key)) := by
  intro pre
  induction pre with
  | nil => intro _; simp [validateRequired, hkey]
  | cons p rest ih =>
    intro hpre
    have hp : mdValueFalsy (mdGet md p) = false := hpre p (by simp)
    simp only [List.cons_append, validateRequired, hp]
    exact ih (fun k hk => hpre k (by simp [hk]))

theorem validateRequired_error_iff (md : Metadata) (required : List String) :
    (∃ e, validateRequired md required = .error e) ↔
      ∃ k ∈ required, mdValueFalsy (mdGet md k) = true := by
  constructor
  · rintro ⟨e, he⟩
    by_contra hno
    push_neg at hno
    have hall : ∀ k ∈ required, mdValueFalsy (mdGet md k) = false := by
      intro k hk
      cases hv : mdValueFalsy (mdGet md k) with
      | false => rfl
      | true => exact absurd hv (hno k hk)
    rw [(validateRequired_ok_iff md required).mpr hall] at he
    simp at he
  · rintro ⟨k, hk, hfal⟩
    cases hv : validateRequired md required with
    | error e => exact ⟨e, rfl⟩
    | ok u =>
      cases u
      exact absurd ((validateRequired_ok_iff md required).mp hv k hk) (by simp [hfal])

/-- C1: for every request executed by `_RetryRequest` with `retry_4xx` false
in which every attempt fails with a non-4xx failure (5xx, connection error,
timeout), exactly `MAX_TRIES = 5` attempts are made, each failure on attempt
`n` except the last is followed by a sleep of `(n + 1) * TRY_DELAY_FACTOR`
seconds — with the defaults the sleeps are 5, 10, 15 and 20 seconds, none
before the first attempt or after the last — and the run raises a
`RequestError` tagged as a permanent failure carrying the last underlying
error. -/
theorem C1_retry_backoff_exhaustion (opener : Nat → AttemptOutcome) (desc : String)
    (hf : ∀ n, n < MAX_TRIES → isNon4xxFailure (opener n) = true) :
    retryRequest opener desc false =
      ⟨.error (.requestError (desc ++ " failed permanently: " ++ strFailure (opener 4))),
       [5, 10, 15, 20], MAX_TRIES⟩ := by
  have h := retryAux_allFail opener desc MAX_TRIES TRY_DELAY_FACTOR MAX_TRIES 0
    (by simp) (by simp [MAX_TRIES]) (fun n _ hn => hf n hn)
  rw [retryRequest, h]
  have hsl : linearSleeps TRY_DELAY_FACTOR 0 (MAX_TRIES - 1) = [5, 10, 15, 20] := by
    simp [linearSleeps, MAX_TRIES, TRY_DELAY_FACTOR]
  rw [hsl, show MAX_TRIES - 1 = 4 from rfl]

/-- Witness for C1: a run in which every attempt fails with a connection
error makes 5 attempts, sleeps 5, 10, 15 and 20 seconds between them, and
raises the permanent-failure `RequestError` carrying the last error. -/
theorem C1_retry_backoff_exhaustion_witness :
    (∀ n, n < MAX_TRIES →
        isNon4xxFailure ((fun _ => AttemptOutcome.urlError "Connection refused") n) = true)
    ∧ retryRequest (fun _ => AttemptOutcome.urlError "Connection refused")
        "Uploading passphrase" false =
      ⟨.error (.requestError ("Uploading passphrase" ++ " failed permanently: "
          ++ strFailure (AttemptOutcome.urlError "Connection refused"))),
       [5, 10, 15, 20], MAX_TRIES⟩ :=
  ⟨fun _ _ => rfl,
   C1_retry_backoff_exhaustion (fun _ => AttemptOutcome.urlError "Connection refused")
     "Uploading passphrase" (fun _ _ => rfl)⟩

/-- C2: a request executed by `_RetryRequest` with `retry_4xx` false whose
first attempt comes back with an HTTP status in [400, 500) makes exactly one
attempt, sleeps never, and raises a `RequestError` carrying the status and
the server-reported body; no retry occurs. -/
theorem C2_no_retry_on_4xx (opener : Nat → AttemptOutcome) (desc : String)
    (code : Nat) (msg body : String) (h4 : 400 ≤ code) (h5 : code < 500)
    (h0 : opener 0 = .httpError code msg body) :
    retryRequest opener desc false =
      ⟨.error (.requestError (desc ++ " failed: " ++ strHTTPError code (msg ++ ": " ++ body))),
       [], 1⟩ := by
  rw [retryRequest, show MAX_TRIES = 4 + 1 from rfl, retryAux_step, h0]
  dsimp only
  rw [if_pos ⟨h4, h5, rfl⟩]

/-- Witness for C2: a 403 response with body is rejected after exactly one
attempt with no sleeps, and the raised error names the status and body. -/
theorem C2_no_retry_on_4xx_witness :
    (400 ≤ 403 ∧ 403 < 500
      ∧ (fun _ => AttemptOutcome.httpError 403 "Forbidden" "Access denied") 0
          = .httpError 403 "Forbidden" "Access denied")
    ∧ retryRequest (fun _ => AttemptOutcome.httpError 403 "Forbidden" "Access denied")
        "Fetching XSRF token" false =
      ⟨.error (.requestError ("Fetching XSRF token" ++ " failed: "
          ++ strHTTPError 403 ("Forbidden" ++ ": " ++ "Access denied"))), [], 1⟩ :=
  ⟨⟨by decide, by decide, rfl⟩,
   C2_no_retry_on_4xx (fun _ => AttemptOutcome.httpError 403 "Forbidden" "Access denied")
     "Fetching XSRF token" 403 "Forbidden" "Access denied" (by decide) (by decide) rfl⟩

/-- C3: `GetAndValidateMetadata`, run on a fresh client whose `_GetMetadata`
returns `md`, raises `MetadataError` iff at least one required key is absent
or maps to an empty value, succeeds otherwise, and the key named in the error
is the first offending key in the declared order of the required list; in
particular with metadata hostname = h1, serial = "" and required list
[hostname, serial] it raises `MetadataError` naming serial. -/
theorem C3_metadata_validation (md : Metadata) (required pre post : List String)
    (key : String) :
    (getAndValidateMetadata none md required = .ok md ↔
        ∀ k ∈ required, mdValueFalsy (mdGet md k) = false)
    ∧ ((∃ e, getAndValidateMetadata none md required = .error e) ↔
        ∃ k ∈ required, mdValueFalsy (mdGet md k) = true)
    ∧ (required = pre ++ key :: post →
        (∀ k ∈ pre, mdValueFalsy (mdGet md k) = false) →
        mdValueFalsy (mdGet md key) = true →
        getAndValidateMetadata none md required =
          .error (.metadataError ("Required metadata is not found: " ++ key)))
    ∧ getAndValidateMetadata none [("hostname", "h1"), ("serial", "")]
        ["hostname", "serial"]
        = .error (.metadataError "Required metadata is not found: serial") := by
  have hbridge : ∀ req : List String, getAndValidateMetadata none md req =
      match validateRequired md req with
      | .ok _ => .ok md
      | .error e => .error e := fun _ => rfl
  refine ⟨?_, ?_, ?_, rfl⟩
  · rw [hbridge, ← validateRequired_ok_iff md required]
    cases hv : validateRequired md required with
    | ok u => cases u; simp
    | error e => simp
  · rw [hbridge, ← validateRequired_error_iff md required]
    cases hv : validateRequired md required with
    | ok u => cases u; simp
    | error e => simp
  · intro hreq hpre hkey
    rw [hbridge, hreq, validateRequired_first md post key hkey pre hpre]

/-- Witness for C3: the scenario of the claim, with the first-offender
implication discharged at pre = [hostname], key = serial, post = []. -/
theorem C3_metadata_validation_witness :
    ((["hostname", "serial"] : List String) = ["hostname"] ++ "serial" :: []
      ∧ (∀ k ∈ (["hostname"] : List String),
          mdValueFalsy (mdGet [("hostname", "h1"), ("serial", "")] k) = false)
      ∧ mdValueFalsy (mdGet [("hostname", "h1"), ("serial", "")] "serial") = true)
    ∧ getAndValidateMetadata none [("hostname", "h1"), ("serial", "")]
        ["hostname", "serial"]
        = .error (.metadataError "Required metadata is not found: serial") :=
  ⟨⟨by decide, by decide, by decide⟩,
   (C3_metadata_validation [("hostname", "h1"), ("serial", "")] ["hostname", "serial"]
      ["hostname"] [] "serial").2.2.1 (by decide) (by decide) (by decide)⟩

/-- C4: when the XSRF token fetch succeeded and the server answers the GET of
`RetrieveSecret` with HTTP 404, the operation raises `NotFoundError` (the
`RequestError` subclass), never the generic `RequestError`; every other HTTP
error or connection failure of that GET raises the generic `RequestError`. -/
theorem C4_notfound_mapping (tokenOpener : Nat → AttemptOutcome)
    (jsonLoads : String → Except String PyJson) (target tok : String)
    (htok : (fetchXsrfTokenT tokenOpener GET_PASSPHRASE_ACTION).result = .ok tok) :
    (∀ msg body,
        (retrieveSecretT tokenOpener (.httpError 404 msg body) jsonLoads target).result
          = .error (.notFoundError ("Failed to retrieve passphrase. "
              ++ strHTTPError 404 (msg ++ ": " ++ body))))
    ∧ (∀ code msg body, code ≠ 404 →
        (retrieveSecretT tokenOpener (.httpError code msg body) jsonLoads target).result
          = .error (.requestError ("Failed to retrieve passphrase. "
              ++ strHTTPError code (msg ++ ": " ++ body))))
    ∧ (∀ reason,
        (retrieveSecretT tokenOpener (.urlError reason) jsonLoads target).result
          = .error (.requestError ("Failed to retrieve passphrase. " ++ strURLError reason))) := by
  refine ⟨?_, ?_, ?_⟩
  · intro msg body
    unfold retrieveSecretT
    simp only [htok]
    rw [if_pos (show (404 : Nat) = NOT_FOUND from rfl)]
  · intro code msg body hne
    unfold retrieveSecretT
    simp only [htok]
    rw [if_neg (show ¬(code = NOT_FOUND) from by simpa [NOT_FOUND] using hne)]
  · intro reason
    unfold retrieveSecretT
    simp only [htok]

/-- Witness for C4: with a token fetch that succeeds on the first attempt, a
404 answer maps to `NotFoundError`. -/
theorem C4_notfound_mapping_witness :
    (fetchXsrfTokenT (fun _ => AttemptOutcome.success "tok")
        GET_PASSPHRASE_ACTION).result = .ok "tok"
    ∧ (retrieveSecretT (fun _ => AttemptOutcome.success "tok")
        (.httpError 404 "Not Found" "no such volume")
        (fun _ => .error "unused") "volume-1").result
      = .error (.notFoundError ("Failed to retrieve passphrase. "
          ++ strHTTPError 404 ("Not Found" ++ ": " ++ "no such volume"))) :=
  ⟨rfl,
   (C4_notfound_mapping (fun _ => AttemptOutcome.success "tok")
      (fun _ => .error "unused") "volume-1" "tok" rfl).1 "Not Found" "no such volume"⟩

/-- C5: when the XSRF token fetch succeeded and the GET of `RetrieveSecret`
returns a body, then: if the body starts with `JSON_PREFIX` the operation
strips the prefix, parses the remainder with `json.loads` and returns the
value stored under the key `passphrase`; if the body does not start with the
prefix it raises `RequestError` with the message
`Expected JSON prefix missing.`. -/
theorem C5_json_prefix_contract (tokenOpener : Nat → AttemptOutcome)
    (jsonLoads : String → Except String PyJson) (target tok content : String)
    (jdata v : PyJson)
    (htok : (fetchXsrfTokenT tokenOpener GET_PASSPHRASE_ACTION).result = .ok tok) :
    (pyStartsWith content JSON_PREFIX = true →
        jsonLoads (pyDrop content (String.length JSON_PREFIX)) = .ok jdata →
        pyGetItem jdata PASSPHRASE_KEY = .ok v →
        (retrieveSecretT tokenOpener (.success content) jsonLoads target).result = .ok v)
    ∧ (pyStartsWith content JSON_PREFIX = false →
        (retrieveSecretT tokenOpener (.success content) jsonLoads target).result
          = .error (.requestError "Expected JSON prefix missing.")) := by
  constructor
  · intro hpre hload hitem
    unfold retrieveSecretT
    simp only [htok, hpre, if_true, hload, hitem]
  · intro hpre
    unfold retrieveSecretT
    simp only [htok, hpre, Bool.false_eq_true, if_false]

/-- Witness for C5: a correctly prefixed JSON body yields the passphrase, and
the same operation on a body missing the prefix raises the protocol error. -/
theorem C5_json_prefix_contract_witness :
    (pyStartsWith (JSON_PREFIX ++ "\x7b\"passphrase\": \"s3cret\"\x7d") JSON_PREFIX = true
      ∧ (fun s => if s == "\x7b\"passphrase\": \"s3cret\"\x7d"
            then (Except.ok (PyJson.obj [("passphrase", PyJson.str "s3cret")])
              : Except String PyJson)
            else .error "No JSON object could be decoded")
          (pyDrop (JSON_PREFIX ++ "\x7b\"passphrase\": \"s3cret\"\x7d")
            (String.length JSON_PREFIX))
          = .ok (PyJson.obj [("passphrase", PyJson.str "s3cret")])
      ∧ pyGetItem (PyJson.obj [("passphrase", PyJson.str "s3cret")]) PASSPHRASE_KEY
          = .ok (PyJson.str "s3cret"))
    ∧ (retrieveSecretT (fun _ => AttemptOutcome.success "tok")
        (.success (JSON_PREFIX ++ "\x7b\"passphrase\": \"s3cret\"\x7d"))
        (fun s => if s == "\x7b\"passphrase\": \"s3cret\"\x7d"
            then .ok (PyJson.obj [("passphrase", PyJson.str "s3cret")])
            else .error "No JSON object could be decoded") "volume-1").result
      = .ok (PyJson.str "s3cret") :=
  ⟨⟨rfl, rfl, rfl⟩,
   (C5_json_prefix_contract (fun _ => AttemptOutcome.success "tok")
      (fun s => if s == "\x7b\"passphrase\": \"s3cret\"\x7d"
          then .ok (PyJson.obj [("passphrase", PyJson.str "s3cret")])
          else .error "No JSON object could be decoded")
      "volume-1" "tok" (JSON_PREFIX ++ "\x7b\"passphrase\": \"s3cret\"\x7d")
      (PyJson.obj [("passphrase", PyJson.str "s3cret")]) (PyJson.str "s3cret")
      rfl).1 rfl rfl rfl⟩

theorem fetchXsrfTokenT_trace_head (opener : Nat → AttemptOutcome) (action : String) :
    (fetchXsrfTokenT opener action).trace.head? = some ⟨"GET", .xsrfToken action⟩ := by
  rw [fetchXsrfTokenT_trace]
  exact head?_replicate_pos _ _ (retryRequest_attempts_pos opener _ false)

theorem retrieveSecretT_trace_err (tokenOpener : Nat → AttemptOutcome)
    (getOutcome : AttemptOutcome) (jsonLoads : String → Except String PyJson)
    (target : String) (e : PyError)
    (htok : (fetchXsrfTokenT tokenOpener GET_PASSPHRASE_ACTION).result = .error e) :
    (retrieveSecretT tokenOpener getOutcome jsonLoads target).trace
      = (fetchXsrfTokenT tokenOpener GET_PASSPHRASE_ACTION).trace := by
  unfold retrieveSecretT
  simp only [htok]

theorem retrieveSecretT_trace_ok (tokenOpener : Nat → AttemptOutcome)
    (getOutcome : AttemptOutcome) (jsonLoads : String → Except String PyJson)
    (target tok : String)
    (htok : (fetchXsrfTokenT tokenOpener GET_PASSPHRASE_ACTION).result = .ok tok) :
    (retrieveSecretT tokenOpener getOutcome jsonLoads target).trace
      = (fetchXsrfTokenT tokenOpener GET_PASSPHRASE_ACTION).trace
          ++ [⟨"GET", .escrowSecret target⟩] := by
  unfold retrieveSecretT
  simp only [htok]
  cases getOutcome with
  | success content =>
    dsimp only
    split
    · cases jsonLoads (pyDrop content (String.length JSON_PREFIX)) <;> rfl
    · rfl
  | httpError code msg body =>
    dsimp only
    split <;> rfl
  | urlError reason => rfl

theorem retrieveSecretT_trace_head (tokenOpener : Nat → AttemptOutcome)
    (getOutcome : AttemptOutcome) (jsonLoads : String → Except String PyJson)
    (target : String) :
    (retrieveSecretT tokenOpener getOutcome jsonLoads target).trace.head?
      = some ⟨"GET", .xsrfToken GET_PASSPHRASE_ACTION⟩ := by
  cases htok : (fetchXsrfTokenT tokenOpener GET_PASSPHRASE_ACTION).result with
  | ok tok =>
    rw [retrieveSecretT_trace_ok tokenOpener getOutcome jsonLoads target tok htok]
    exact head?_append_left _ _ _ (fetchXsrfTokenT_trace_head tokenOpener _)
  | error e =>
    rw [retrieveSecretT_trace_err tokenOpener getOutcome jsonLoads target e htok]
    exact fetchXsrfTokenT_trace_head tokenOpener _

theorem uploadPassphraseT_trace_head (tokenOpener putOpener : Nat → AttemptOutcome)
    (metadata0 : Option Metadata) (fetched : Metadata) (required : List String)
    (target pass : String) (retry4xx : Bool) :
    (uploadPassphraseT tokenOpener putOpener metadata0 fetched required target pass
        retry4xx).trace.head?
      = some ⟨"GET", .xsrfToken SET_PASSPHRASE_ACTION⟩ := by
  unfold uploadPassphraseT
  cases htok : (fetchXsrfTokenT tokenOpener SET_PASSPHRASE_ACTION).result with
  | error e =>
    simp only [htok]
    exact fetchXsrfTokenT_trace_head tokenOpener _
  | ok tok =>
    simp only [htok]
    split
    · exact fetchXsrfTokenT_trace_head tokenOpener _
    · split
      · exact head?_append_left _ _ _ (fetchXsrfTokenT_trace_head tokenOpener _)
      · exact head?_append_left _ _ _ (fetchXsrfTokenT_trace_head tokenOpener _)

/-- Counterexample to C6: `IsKeyRotationNeeded` issues its GET without ever
fetching an XSRF token — its whole request trace is the single rekey-status
GET and contains no token fetch, contradicting the claim that every public
operation fetches a token scoped to its own action before its request. -/
theorem C6_counterexample :
    (isKeyRotationNeededT (.success (JSON_PREFIX ++ "true"))
        (fun _ => .ok (PyJson.bool true)) "volume-1" "default").trace
      = [⟨"GET", .rekeyStatus "volume-1" "default"⟩]
    ∧ ((isKeyRotationNeededT (.success (JSON_PREFIX ++ "true"))
        (fun _ => .ok (PyJson.bool true)) "volume-1" "default").trace.all
          fun r => !isXsrfFetch r) = true :=
  ⟨rfl, rfl⟩

/-- C6 (amended): `RetrieveSecret` and `UploadPassphrase` each begin by
fetching a fresh XSRF token scoped to their own action name — the very first
network request of every `RetrieveSecret` call is a token fetch for
`GET_PASSPHRASE_ACTION` and of every `UploadPassphrase` call a token fetch
for `SET_PASSPHRASE_ACTION`, and the two action names are distinct — but
`IsKeyRotationNeeded` performs its GET without any XSRF token. -/
theorem C6_xsrf_scoping_amended (tokenOpener tokenOpener2 putOpener : Nat → AttemptOutcome)
    (getOutcome getOutcome2 : AttemptOutcome)
    (jsonLoads jsonLoads2 : String → Except String PyJson)
    (metadata0 : Option Metadata) (fetched : Metadata) (required : List String)
    (target target2 target3 tag pass : String) (retry4xx : Bool) :
    (retrieveSecretT tokenOpener getOutcome jsonLoads target).trace.head?
        = some ⟨"GET", .xsrfToken GET_PASSPHRASE_ACTION⟩
    ∧ (uploadPassphraseT tokenOpener2 putOpener metadata0 fetched required target2 pass
        retry4xx).trace.head?
        = some ⟨"GET", .xsrfToken SET_PASSPHRASE_ACTION⟩
    ∧ GET_PASSPHRASE_ACTION ≠ SET_PASSPHRASE_ACTION
    ∧ ((isKeyRotationNeededT getOutcome2 jsonLoads2 target3 tag).trace.all
        fun r => !isXsrfFetch r) = true := by
  refine ⟨retrieveSecretT_trace_head tokenOpener getOutcome jsonLoads target,
    uploadPassphraseT_trace_head tokenOpener2 putOpener metadata0 fetched required
      target2 pass retry4xx,
    by decide, ?_⟩
  cases getOutcome2 with
  | success content =>
    simp only [isKeyRotationNeededT]
    split
    · split <;> rfl
    · rfl
  | httpError code msg body => rfl
  | urlError reason => rfl

theorem fetchXsrfTokenT_allFail_trace_len (opener : Nat → AttemptOutcome) (action : String)
    (hf : ∀ n, n < MAX_TRIES → isNon4xxFailure (opener n) = true) :
    (fetchXsrfTokenT opener action).trace.length = MAX_TRIES := by
  rw [fetchXsrfTokenT_trace, List.length_replicate]
  have h := retryAux_allFail opener "Fetching XSRF token" MAX_TRIES TRY_DELAY_FACTOR
    MAX_TRIES 0 (by simp) (by simp [MAX_TRIES]) (fun n _ hn => hf n hn)
  rw [retryRequest, h]

theorem isKeyRotationNeededT_trace (getOutcome : AttemptOutcome)
    (jsonLoads : String → Except String PyJson) (target tag : String) :
    (isKeyRotationNeededT getOutcome jsonLoads target tag).trace
      = [⟨"GET", .rekeyStatus target tag⟩] := by
  cases getOutcome with
  | success content =>
    simp only [isKeyRotationNeededT]
    split
    · split <;> rfl
    · rfl
  | httpError code msg body => rfl
  | urlError reason => rfl

/-- Counterexample to C7: with a token fetch that succeeds immediately, a
connection error on the GET of `RetrieveSecret` raises `RequestError` after a
single GET attempt — the request trace holds exactly one escrow GET — so that
GET is not executed through the retry transport and is not retried up to
MAX_TRIES as the claim states. -/
theorem C7_counterexample :
    (retrieveSecretT (fun _ => AttemptOutcome.success "tok")
        (.urlError "Connection refused") (fun _ => .error "unused") "volume-1").result
      = .error (.requestError ("Failed to retrieve passphrase. "
          ++ strURLError "Connection refused"))
    ∧ (retrieveSecretT (fun _ => AttemptOutcome.success "tok")
        (.urlError "Connection refused") (fun _ => .error "unused") "volume-1").trace
      = [⟨"GET", .xsrfToken GET_PASSPHRASE_ACTION⟩, ⟨"GET", .escrowSecret "volume-1"⟩] :=
  ⟨rfl, rfl⟩

/-- C7 (amended): the XSRF token fetches and the upload PUT are executed
through the retry transport — when every attempt fails with a transient
error, the token fetch makes MAX_TRIES attempts, and so does the upload PUT
once the token is obtained and metadata is present — but the GETs issued by
`RetrieveSecret` and `IsKeyRotationNeeded` are sent directly and exactly
once, so a transient failure there raises `RequestError` after the single
attempt. -/
theorem C7_retry_wrapping_amended (tokenOpenerA tokenOpenerB putOpener : Nat → AttemptOutcome)
    (getOutcome : AttemptOutcome) (jsonLoads jsonLoads2 : String → Except String PyJson)
    (metadata0 : Option Metadata) (fetched : Metadata) (required : List String)
    (action target target2 target3 tag pass tokB tokB2 reason : String)
    (hA : ∀ n, n < MAX_TRIES → isNon4xxFailure (tokenOpenerA n) = true)
    (hB : (fetchXsrfTokenT tokenOpenerB GET_PASSPHRASE_ACTION).result = .ok tokB)
    (hBs : (fetchXsrfTokenT tokenOpenerB SET_PASSPHRASE_ACTION).result = .ok tokB2)
    (hPut : ∀ n, n < MAX_TRIES → isNon4xxFailure (putOpener n) = true)
    (hmd : mdFalsy metadata0 = false) :
    (fetchXsrfTokenT tokenOpenerA action).trace.length = MAX_TRIES
    ∧ (retrieveSecretT tokenOpenerB (.urlError reason) jsonLoads target).result
        = .error (.requestError ("Failed to retrieve passphrase. " ++ strURLError reason))
    ∧ (retrieveSecretT tokenOpenerB (.urlError reason) jsonLoads target).trace.countP
        isSecretGet = 1
    ∧ (isKeyRotationNeededT getOutcome jsonLoads2 target2 tag).trace.countP isRekeyGet = 1
    ∧ (uploadPassphraseT tokenOpenerB putOpener metadata0 fetched required target3 pass
        false).trace.countP isUploadPut = MAX_TRIES := by
  refine ⟨fetchXsrfTokenT_allFail_trace_len tokenOpenerA action hA, ?_, ?_, ?_, ?_⟩
  · unfold retrieveSecretT
    simp only [hB]
  · rw [retrieveSecretT_trace_ok tokenOpenerB _ jsonLoads target tokB hB,
      List.countP_append, fetchXsrfTokenT_trace,
      countP_replicate_false isSecretGet _
        ⟨"GET", ReqPath.xsrfToken GET_PASSPHRASE_ACTION⟩ rfl]
    rfl
  · rw [isKeyRotationNeededT_trace]
    rfl
  · have hrun := retryAux_allFail putOpener "Uploading passphrase" MAX_TRIES
      TRY_DELAY_FACTOR MAX_TRIES 0 (by simp) (by simp [MAX_TRIES]) (fun n _ hn => hPut n hn)
    unfold uploadPassphraseT
    simp only [hBs, hmd, Bool.false_eq_true, if_false]
    simp only [retryRequest, hrun]
    rw [List.countP_append, fetchXsrfTokenT_trace,
      countP_replicate_false isUploadPut _
        ⟨"GET", ReqPath.xsrfToken SET_PASSPHRASE_ACTION⟩ rfl,
      countP_replicate_true isUploadPut _ ⟨"PUT", ReqPath.escrowUpload target3⟩ rfl]
    omega

/-- Witness for C7 (amended): a permanently failing token fetch makes
MAX_TRIES attempts; a single-GET retrieve fails at once; the rekey check
issues one GET; a permanently failing upload PUT makes MAX_TRIES attempts. -/
theorem C7_retry_wrapping_amended_witness :
    ((∀ n, n < MAX_TRIES →
        isNon4xxFailure ((fun _ => AttemptOutcome.urlError "down") n) = true)
      ∧ (fetchXsrfTokenT (fun _ => AttemptOutcome.success "tok")
          GET_PASSPHRASE_ACTION).result = .ok "tok"
      ∧ (fetchXsrfTokenT (fun _ => AttemptOutcome.success "tok")
          SET_PASSPHRASE_ACTION).result = .ok "tok"
      ∧ mdFalsy (some [("hostname", "h1")]) = false)
    ∧ ((fetchXsrfTokenT (fun _ => AttemptOutcome.urlError "down") "SomeAction").trace.length
        = MAX_TRIES
      ∧ (retrieveSecretT (fun _ => AttemptOutcome.success "tok") (.urlError "down")
          (fun _ => .error "unused") "volume-1").result
        = .error (.requestError ("Failed to retrieve passphrase. " ++ strURLError "down"))
      ∧ (retrieveSecretT (fun _ => AttemptOutcome.success "tok") (.urlError "down")
          (fun _ => .error "unused") "volume-1").trace.countP isSecretGet = 1
      ∧ (isKeyRotationNeededT (.success "x") (fun _ => .error "unused")
          "volume-2" "default").trace.countP isRekeyGet = 1
      ∧ (uploadPassphraseT (fun _ => AttemptOutcome.success "tok")
          (fun _ => AttemptOutcome.urlError "down") (some [("hostname", "h1")]) [] []
          "volume-3" "pass" false).trace.countP isUploadPut = MAX_TRIES) :=
  ⟨⟨fun _ _ => rfl, rfl, rfl, rfl⟩,
   C7_retry_wrapping_amended (fun _ => AttemptOutcome.urlError "down")
     (fun _ => AttemptOutcome.success "tok") (fun _ => AttemptOutcome.urlError "down")
     (.success "x") (fun _ => .error "unused") (fun _ => .error "unused")
     (some [("hostname", "h1")]) [] [] "SomeAction" "volume-1" "volume-2" "volume-3"
     "default" "pass" "tok" "tok" "down"
     (fun _ _ => rfl) rfl rfl (fun _ _ => rfl) rfl⟩

/-- Counterexample to C8: when the backend key rotation succeeds and the
subsequent upload fails, the rotate-key path reports exactly the same outcome
— `ShowFatalError(glue.ESCROW_FAILED_MESSAGE)` — as the encrypt-new-volume
path does for an upload failure with no prior rotation, so the two errors
are not distinguishable. -/
theorem C8_counterexample :
    rotateRecoveryKey (.ok "new-recovery-key")
        (fun _ _ => .error (.requestError
          "Uploading passphrase failed permanently: <urlopen error timeout>"))
        "volume-1"
      = plainVolumeAction (.ok ("volume-1", "recovery-token"))
        (fun _ _ => .error (.requestError
          "Uploading passphrase failed permanently: <urlopen error timeout>"))
    ∧ rotateRecoveryKey (.ok "new-recovery-key")
        (fun _ _ => .error (.requestError
          "Uploading passphrase failed permanently: <urlopen error timeout>"))
        "volume-1"
      = .fatalError ESCROW_FAILED_MESSAGE :=
  ⟨rfl, rfl⟩

/-- C8 (amended): in the rotate-key workflow a successful backend rotation
followed by a failed upload is reported with the single generic
`glue.ESCROW_FAILED_MESSAGE`, the same fatal error the encrypt-new-volume
path shows for an upload failure without a prior rotation; the source does
not distinguish the two. -/
theorem C8_rotate_error_amended (e e2 : PyError)
    (key vol vol2 tok : String) :
    rotateRecoveryKey (.ok key) (fun _ _ => .error e) vol
        = .fatalError ESCROW_FAILED_MESSAGE
    ∧ plainVolumeAction (.ok (vol2, tok)) (fun _ _ => .error e2)
        = .fatalError ESCROW_FAILED_MESSAGE :=
  ⟨rfl, rfl⟩

/-- Counterexample to C9: a response body that carries the required JSON
marker but is not valid JSON makes `RetrieveSecret` raise the raw `ValueError`
of `json.loads` — not one of RequestError, NotFoundError, MetadataError,
AuthenticationError — so a raw parsing exception does escape the component. -/
theorem C9_counterexample :
    (retrieveSecretT (fun _ => AttemptOutcome.success "tok")
        (.success (JSON_PREFIX ++ "not json"))
        (fun _ => .error "No JSON object could be decoded") "volume-1").result
      = .error (.valueError "No JSON object could be decoded")
    ∧ isEscrowTaxonomyError (.valueError "No JSON object could be decoded") = false :=
  ⟨rfl, rfl⟩

theorem pyGetItem_error_class (data : PyJson) (key : String) (e : PyError)
    (h : pyGetItem data key = .error e) : isRawDataError e = true := by
  cases data with
  | obj fields =>
    simp only [pyGetItem] at h
    cases hl : pyLookup fields key with
    | some v => rw [hl] at h; simp at h
    | none => rw [hl] at h; simp at h; simp [← h, isRawDataError]
  | str s => simp only [pyGetItem] at h; simp at h; simp [← h, isRawDataError]
  | bool b => simp only [pyGetItem] at h; simp at h; simp [← h, isRawDataError]
  | null => simp only [pyGetItem] at h; simp at h; simp [← h, isRawDataError]

theorem getAndValidateMetadata_error_shape (md0 : Option Metadata) (fetched : Metadata)
    (required : List String) (e : PyError)
    (h : getAndValidateMetadata md0 fetched required = .error e) :
    ∃ m, e = .metadataError m := by
  simp only [getAndValidateMetadata] at h
  cases hv : validateRequired (if mdFalsy md0 then fetched else md0.getD []) required with
  | ok u => rw [hv] at h; simp at h
  | error e' =>
    rw [hv] at h
    simp at h
    exact h ▸ validateRequired_error_shape _ required e' hv

theorem retrieveSecretT_error_class (tokenOpener : Nat → AttemptOutcome)
    (getOutcome : AttemptOutcome) (jsonLoads : String → Except String PyJson)
    (target : String) (e : PyError)
    (h : (retrieveSecretT tokenOpener getOutcome jsonLoads target).result = .error e) :
    isEscrowTaxonomyError e = true ∨ isRawDataError e = true := by
  unfold retrieveSecretT at h
  cases htok : (fetchXsrfTokenT tokenOpener GET_PASSPHRASE_ACTION).result with
  | error e' =>
    simp only [htok] at h
    simp at h
    obtain ⟨m, hm⟩ := fetchXsrfTokenT_error_shape tokenOpener _ e' htok
    left; rw [← h, hm]; rfl
  | ok tok =>
    simp only [htok] at h
    cases getOutcome with
    | httpError code msg body =>
      dsimp only at h
      split at h
      · simp at h; left; rw [← h]; rfl
      · simp at h; left; rw [← h]; rfl
    | urlError reason =>
      simp at h; left; rw [← h]; rfl
    | success content =>
      dsimp only at h
      split at h
      · cases hl : jsonLoads (pyDrop content (String.length JSON_PREFIX)) with
        | error m => rw [hl] at h; simp at h; right; rw [← h]; rfl
        | ok data =>
          rw [hl] at h
          simp at h
          right; exact pyGetItem_error_class data PASSPHRASE_KEY e h
      · simp at h; left; rw [← h]; rfl

theorem isKeyRotationNeededT_error_class (getOutcome : AttemptOutcome)
    (jsonLoads : String → Except String PyJson) (target tag : String) (e : PyError)
    (h : (isKeyRotationNeededT getOutcome jsonLoads target tag).result = .error e) :
    isEscrowTaxonomyError e = true ∨ isRawDataError e = true := by
  cases getOutcome with
  | httpError code msg body =>
    simp [isKeyRotationNeededT] at h; left; rw [← h]; rfl
  | urlError reason =>
    simp [isKeyRotationNeededT] at h; left; rw [← h]; rfl
  | success content =>
    simp only [isKeyRotationNeededT] at h
    split at h
    · cases hl : jsonLoads (pyDrop content (String.length JSON_PREFIX)) with
      | error m => rw [hl] at h; simp at h; right; rw [← h]; rfl
      | ok data => rw [hl] at h; simp at h
    · simp at h; left; rw [← h]; rfl

theorem uploadPassphraseT_error_class (tokenOpener putOpener : Nat → AttemptOutcome)
    (metadata0 : Option Metadata) (fetched : Metadata) (required : List String)
    (target pass : String) (retry4xx : Bool) (e : PyError)
    (h : (uploadPassphraseT tokenOpener putOpener metadata0 fetched required target pass
        retry4xx).result = .error e) :
    isEscrowTaxonomyError e = true ∨ isRawDataError e = true := by
  unfold uploadPassphraseT at h
  cases htok : (fetchXsrfTokenT tokenOpener SET_PASSPHRASE_ACTION).result with
  | error e' =>
    simp only [htok] at h
    simp at h
    obtain ⟨m, hm⟩ := fetchXsrfTokenT_error_shape tokenOpener _ e' htok
    left; rw [← h, hm]; rfl
  | ok tok =>
    simp only [htok] at h
    cases hmd : (if mdFalsy metadata0 then getAndValidateMetadata metadata0 fetched required
        else Except.ok (metadata0.getD [])) with
    | error e2 =>
      rw [hmd] at h
      simp at h
      have he2 : ∃ m, e2 = PyError.metadataError m := by
        rcases Bool.eq_false_or_eq_true (mdFalsy metadata0) with hb | hb
        · rw [hb] at hmd
          simp at hmd
          exact getAndValidateMetadata_error_shape metadata0 fetched required e2 hmd
        · rw [hb] at hmd; simp at hmd
      obtain ⟨m, hm⟩ := he2
      left; rw [← h, hm]; rfl
    | ok md =>
      rw [hmd] at h
      cases hrr : (retryRequest putOpener "Uploading passphrase" retry4xx).result with
      | ok o => rw [hrr] at h; simp at h
      | error e3 =>
        rw [hrr] at h
        simp at h
        obtain ⟨m3, hm3⟩ := retryRequest_error_shape putOpener _ retry4xx e3 hrr
        left; rw [← h, hm3]; rfl

/-- C9 (amended): every error escaping `RetrieveSecret`,
`IsKeyRotationNeeded` or `UploadPassphrase` is either one of the four domain
classes (RequestError, NotFoundError, MetadataError, AuthenticationError) or
a raw data exception of the response-parsing pipeline — the `ValueError` of
`json.loads` on a body that passes the prefix check but is not valid JSON, or
the `KeyError`/`TypeError` of looking up the `passphrase` key — which the
code does let escape; no other raw exception leaks. -/
theorem C9_error_taxonomy_amended (tokenOpener tokenOpener2 putOpener : Nat → AttemptOutcome)
    (getOutcome getOutcome2 : AttemptOutcome)
    (jsonLoads jsonLoads2 : String → Except String PyJson)
    (metadata0 : Option Metadata) (fetched : Metadata) (required : List String)
    (target target2 target3 tag pass : String) (retry4xx : Bool) (e1 e2 e3 : PyError) :
    ((retrieveSecretT tokenOpener getOutcome jsonLoads target).result = .error e1 →
        isEscrowTaxonomyError e1 = true ∨ isRawDataError e1 = true)
    ∧ ((isKeyRotationNeededT getOutcome2 jsonLoads2 target2 tag).result = .error e2 →
        isEscrowTaxonomyError e2 = true ∨ isRawDataError e2 = true)
    ∧ ((uploadPassphraseT tokenOpener2 putOpener metadata0 fetched required target3 pass
        retry4xx).result = .error e3 →
        isEscrowTaxonomyError e3 = true ∨ isRawDataError e3 = true) :=
  ⟨fun h => retrieveSecretT_error_class tokenOpener getOutcome jsonLoads target e1 h,
   fun h => isKeyRotationNeededT_error_class getOutcome2 jsonLoads2 target2 tag e2 h,
   fun h => uploadPassphraseT_error_class tokenOpener2 putOpener metadata0 fetched required
     target3 pass retry4xx e3 h⟩

/-- Witness for C9 (amended): a parsed body lacking the `passphrase` key makes
`RetrieveSecret` raise `KeyError`, which is classified as a raw data error. -/
theorem C9_error_taxonomy_amended_witness :
    ((retrieveSecretT (fun _ => AttemptOutcome.success "tok")
        (.success (JSON_PREFIX ++ "\x7b\x7d"))
        (fun _ => .ok (PyJson.obj [])) "volume-1").result
      = .error (.keyError "passphrase")
      ∧ (isKeyRotationNeededT (.urlError "down") (fun _ => .error "unused")
          "volume-2" "default").result
        = .error (.requestError ("Failed to get status. " ++ strURLError "down"))
      ∧ (uploadPassphraseT (fun _ => AttemptOutcome.success "tok")
          (fun _ => AttemptOutcome.urlError "down") none
          [("hostname", "h1"), ("serial", "")] ["hostname", "serial"]
          "volume-3" "pass" false).result
        = .error (.metadataError "Required metadata is not found: serial"))
    ∧ ((isEscrowTaxonomyError (.keyError "passphrase") = true
        ∨ isRawDataError (.keyError "passphrase") = true)
      ∧ (isEscrowTaxonomyError
            (.requestError ("Failed to get status. " ++ strURLError "down")) = true
        ∨ isRawDataError
            (.requestError ("Failed to get status. " ++ strURLError "down")) = true)
      ∧ (isEscrowTaxonomyError (.metadataError "Required metadata is not found: serial")
            = true
        ∨ isRawDataError (.metadataError "Required metadata is not found: serial")
            = true)) :=
  ⟨⟨rfl, rfl, rfl⟩,
   (C9_error_taxonomy_amended (fun _ => AttemptOutcome.success "tok")
      (fun _ => AttemptOutcome.success "tok") (fun _ => AttemptOutcome.urlError "down")
      (.success (JSON_PREFIX ++ "\x7b\x7d")) (.urlError "down")
      (fun _ => .ok (PyJson.obj [])) (fun _ => .error "unused") none
      [("hostname", "h1"), ("serial", "")] ["hostname", "serial"]
      "volume-1" "volume-2" "volume-3" "default" "pass" false
      (.keyError "passphrase")
      (.requestError ("Failed to get status. " ++ strURLError "down"))
      (.metadataError "Required metadata is not found: serial")).1 rfl,
   (C9_error_taxonomy_amended (fun _ => AttemptOutcome.success "tok")
      (fun _ => AttemptOutcome.success "tok") (fun _ => AttemptOutcome.urlError "down")
      (.success (JSON_PREFIX ++ "\x7b\x7d")) (.urlError "down")
      (fun _ => .ok (PyJson.obj [])) (fun _ => .error "unused") none
      [("hostname", "h1"), ("serial", "")] ["hostname", "serial"]
      "volume-1" "volume-2" "volume-3" "default" "pass" false
      (.keyError "passphrase")
      (.requestError ("Failed to get status. " ++ strURLError "down"))
      (.metadataError "Required metadata is not found: serial")).2.1 rfl,
   (C9_error_taxonomy_amended (fun _ => AttemptOutcome.success "tok")
      (fun _ => AttemptOutcome.success "tok") (fun _ => AttemptOutcome.urlError "down")
      (.success (JSON_PREFIX ++ "\x7b\x7d")) (.urlError "down")
      (fun _ => .ok (PyJson.obj [])) (fun _ => .error "unused") none
      [("hostname", "h1"), ("serial", "")] ["hostname", "serial"]
      "volume-1" "volume-2" "volume-3" "default" "pass" false
      (.keyError "passphrase")
      (.requestError ("Failed to get status. " ++ strURLError "down"))
      (.metadataError "Required metadata is not found: serial")).2.2 rfl⟩

/-- C10: in every `UploadPassphrase` call the XSRF token is fetched before
metadata is gathered and validated, so whenever `UploadPassphrase` raises
`MetadataError` the token fetch has already been issued and succeeded, the
request trace consists solely of the token-fetch requests, and no upload PUT
was ever sent — the escrowed state is unchanged. -/
theorem C10_upload_token_before_metadata (tokenOpener putOpener : Nat → AttemptOutcome)
    (metadata0 : Option Metadata) (fetched : Metadata) (required : List String)
    (target pass : String) (retry4xx : Bool) (m : String)
    (h : (uploadPassphraseT tokenOpener putOpener metadata0 fetched required target pass
        retry4xx).result = .error (.metadataError m)) :
    (∃ tok, (fetchXsrfTokenT tokenOpener SET_PASSPHRASE_ACTION).result = .ok tok)
    ∧ (uploadPassphraseT tokenOpener putOpener metadata0 fetched required target pass
        retry4xx).trace
      = (fetchXsrfTokenT tokenOpener SET_PASSPHRASE_ACTION).trace
    ∧ (uploadPassphraseT tokenOpener putOpener metadata0 fetched required target pass
        retry4xx).trace.countP isUploadPut = 0 := by
  cases htok : (fetchXsrfTokenT tokenOpener SET_PASSPHRASE_ACTION).result with
  | error e' =>
    exfalso
    simp only [uploadPassphraseT, htok] at h
    simp at h
    obtain ⟨m', hm'⟩ := fetchXsrfTokenT_error_shape tokenOpener _ e' htok
    rw [hm'] at h
    exact PyError.noConfusion h
  | ok tok =>
    refine ⟨⟨tok, rfl⟩, ?_, ?_⟩
    · cases hmd : (if mdFalsy metadata0 then getAndValidateMetadata metadata0 fetched required
          else Except.ok (metadata0.getD [])) with
      | error e2 => simp only [uploadPassphraseT, htok, hmd]
      | ok md =>
        exfalso
        simp only [uploadPassphraseT, htok, hmd] at h
        cases hrr : (retryRequest putOpener "Uploading passphrase" retry4xx).result with
        | ok o => rw [hrr] at h; simp at h
        | error e3 =>
          rw [hrr] at h
          simp at h
          obtain ⟨m3, hm3⟩ := retryRequest_error_shape putOpener _ retry4xx e3 hrr
          rw [hm3] at h
          exact PyError.noConfusion h
    · cases hmd : (if mdFalsy metadata0 then getAndValidateMetadata metadata0 fetched required
          else Except.ok (metadata0.getD [])) with
      | error e2 =>
        simp only [uploadPassphraseT, htok, hmd]
        rw [fetchXsrfTokenT_trace]
        exact countP_replicate_false isUploadPut _
          ⟨"GET", ReqPath.xsrfToken SET_PASSPHRASE_ACTION⟩ rfl
      | ok md =>
        exfalso
        simp only [uploadPassphraseT, htok, hmd] at h
        cases hrr : (retryRequest putOpener "Uploading passphrase" retry4xx).result with
        | ok o => rw [hrr] at h; simp at h
        | error e3 =>
          rw [hrr] at h
          simp at h
          obtain ⟨m3, hm3⟩ := retryRequest_error_shape putOpener _ retry4xx e3 hrr
          rw [hm3] at h
          exact PyError.noConfusion h

/-- Witness for C10: with an immediately successful token fetch and metadata
missing the serial value, `UploadPassphrase` raises `MetadataError`, the
token fetch has succeeded, the trace is exactly the token-fetch trace, and it
holds no PUT. -/
theorem C10_upload_token_before_metadata_witness :
    ((uploadPassphraseT (fun _ => AttemptOutcome.success "tok")
        (fun _ => AttemptOutcome.urlError "down") none
        [("hostname", "h1"), ("serial", "")] ["hostname", "serial"]
        "volume-1" "pass" false).result
      = .error (.metadataError "Required metadata is not found: serial"))
    ∧ ((∃ tok, (fetchXsrfTokenT (fun _ => AttemptOutcome.success "tok")
          SET_PASSPHRASE_ACTION).result = .ok tok)
      ∧ (uploadPassphraseT (fun _ => AttemptOutcome.success "tok")
          (fun _ => AttemptOutcome.urlError "down") none
          [("hostname", "h1"), ("serial", "")] ["hostname", "serial"]
          "volume-1" "pass" false).trace
        = (fetchXsrfTokenT (fun _ => AttemptOutcome.success "tok")
            SET_PASSPHRASE_ACTION).trace
      ∧ (uploadPassphraseT (fun _ => AttemptOutcome.success "tok")
          (fun _ => AttemptOutcome.urlError "down") none
          [("hostname", "h1"), ("serial", "")] ["hostname", "serial"]
          "volume-1" "pass" false).trace.countP isUploadPut = 0) :=
  ⟨rfl,
   C10_upload_token_before_metadata (fun _ => AttemptOutcome.success "tok")
     (fun _ => AttemptOutcome.urlError "down") none
     [("hostname", "h1"), ("serial", "")] ["hostname", "serial"]
     "volume-1" "pass" false "Required metadata is not found: serial" rfl⟩
